import Mathlib

/-!
Verification of the email-consolidation agent's navigation/retry state machine.

The Python repository drives a browser through an unknown website to reach a
login page and then an account change-email section.  This file gives a
shallow embedding of the decision logic: the navigation-method resolver and
login-outcome verifier from `src/utils.py`, the retry guards from
`src/graph.py`, and the eight graph nodes from `src/nodes.py` joined into an
explicit step function over the `OverallState` record from `src/state.py`.
External collaborators (browser, classifier, search provider) are modelled as
an `Env` of response functions, so theorems quantify over all stub behaviours.
-/

namespace EmailAgent

/-! ### String primitives

Executable models of the Python string operations used by the source
(`str.lower`, `str.startswith`, substring containment).  They are defined
over the character list of the string so that the kernel can evaluate them.
-/

/-- Model of Python `str.lower` (ASCII case folding, as `Char.toLower`). -/
def toLowerStr (s : String) : String := String.mk (s.data.map Char.toLower)

/-- Model of Python `str.startswith`. -/
def strStartsWith (s p : String) : Bool := s.data.take p.data.length == p.data

/-- Model of Python `needle in hay` substring containment. -/
def strContainsSub (hay needle : String) : Bool :=
  (List.range (hay.data.length + 1)).any
    (fun i => strStartsWith (String.mk (hay.data.drop i)) needle)

/-! ### `src/utils.py`: navigation-method resolver -/

/-- The three no-op href markers from `determine_navigation_method`
(`src/utils.py` lines 12-14). -/
def noOpMarkers : List String := ["#", "javascript:void(0)", "javascript:;"]

/-- Embedding of `determine_navigation_method` (`src/utils.py` lines 4-20).
`none` models Python `None`; `"" `is falsy in Python so `not href` also
covers the empty string. -/
def determine_navigation_method : Option String → String
  | none => "click"
  | some href =>
    if href = "" then "click"
    else
      let href_lower := toLowerStr href
      if href_lower ∈ noOpMarkers then "click"
      else if strStartsWith href_lower "http://" || strStartsWith href_lower "https://" ||
              strStartsWith href_lower "/" then "url"
      else "click"

/-- Case-insensitive string equality, as the spec's rule 2 words it. -/
def ciEq (a b : String) : Bool := toLowerStr a == toLowerStr b

/-- Case-insensitive starts-with, as the spec's rule 3 words it. -/
def ciStartsWith (s p : String) : Bool := strStartsWith (toLowerStr s) (toLowerStr p)

/-- The resolver rule table as the spec (§4.1) words it, for comparison with
the source-derived `determine_navigation_method`:
1. absent/empty href, 2. case-insensitive no-op markers, 3. case-insensitive
`http://`/`https://`/`/` start, 4. conservative default.  `follow-url` is the
string `"url"` and `click-element` the string `"click"`. -/
def resolve_spec : Option String → String
  | none => "click"
  | some h =>
    if h = "" then "click"
    else if ciEq h "#" || ciEq h "javascript:void(0)" || ciEq h "javascript:;" then "click"
    else if ciStartsWith h "http://" || ciStartsWith h "https://" || ciStartsWith h "/" then "url"
    else "click"

/-! ### `src/utils.py`: login-outcome verifier -/

/-- Observations available to `verify_login_success`: the page URL read
before and after the login attempt, and the outcomes of the three
`page.evaluate` inspections, each of which may raise (`Except.error`). -/
structure LoginObs where
  url_start : String
  url_after : String
  form_disappeared : Except String Bool
  no_errors : Except String Bool
  success_indicators : Except String Bool
deriving Repr

/-- The decision formula of `verify_login_success` (`src/utils.py`
lines 90-94), a pure function of the four boolean signals. -/
def login_success_decision (url_changed form_disappeared no_errors success_indicators : Bool) :
    Bool :=
  (url_changed && no_errors) || (form_disappeared && no_errors) ||
    (success_indicators && no_errors && (url_changed || form_disappeared))

/-- The spec's decision formula (§4.3), for comparison with the
source-derived `login_success_decision`. -/
def spec_login_success_formula (urlChanged formGone noErrorsShown successCuesPresent : Bool) :
    Bool :=
  (urlChanged && noErrorsShown) || (formGone && noErrorsShown) ||
    (successCuesPresent && noErrorsShown && (urlChanged || formGone))

/-- The body of the `try` block of `verify_login_success` (`src/utils.py`
lines 33-96): computes `url_changed` from the two URLs, then performs the
three page inspections in order, any of which may raise. -/
def verify_login_successE (obs : LoginObs) : Except String Bool := do
  let url_changed : Bool :=
    (obs.url_after != obs.url_start) && !(strContainsSub (toLowerStr obs.url_after) "/login")
  let fd ← obs.form_disappeared
  let ne ← obs.no_errors
  let si ← obs.success_indicators
  pure (login_success_decision url_changed fd ne si)

/-- Embedding of `verify_login_success` (`src/utils.py` lines 22-99): the
`except` handler turns any inspection exception into `False`. -/
def verify_login_success (obs : LoginObs) : Bool :=
  match verify_login_successE obs with
  | .ok b => b
  | .error _ => false

/-! ### `src/state.py`: the graph state

`OverallState` is a Python `TypedDict` whose keys may be absent; absent keys
are read with `.get(key, default)` or not at all.  Optional-typed keys are
`Option` here; `retry_count` defaults to `0` and the two reached flags to
`False`, matching every `.get` fallback in the source.  The source writes the
key `is_change_email_section_reached` from `check_if_email_change_reached`
although `state.py` does not declare it; it is included here so that the
retry guard can read it, which is the generous reading for the code. -/
structure OverallState where
  website_name : String := ""
  initial_url : Option String := none
  output_status : Option String := none
  current_url : Option String := none
  navigation_method : Option String := none
  is_login_page_reached : Bool := false
  username_selector : Option String := none
  password_selector : Option String := none
  submit_selector : Option String := none
  url_history : List String := []
  retry_count : Nat := 0
  next_action_location : Option String := none
  login_href : Option String := none
  login_success : Option Bool := none
  is_change_email_section_reached : Bool := false
  error : Option String := none
deriving Repr, DecidableEq

/-! ### External collaborators

The browser, the classifier and the search provider are outside the core; a
run consumes them through the calls each node makes.  `Env` packages one
response function per external call site, each a function of the state the
node sees, so a single `Env` value is one stub behaviour and theorems over
all `Env` cover every stub behaviour.  `Except.error` models a raised
exception where the source wraps the call in `try`. -/

/-- Classifier output shape `PageAnalysis` (`src/models/llm.py`). -/
structure PageAnalysisR where
  is_page_reached : Bool
  username_selector : String
  password_selector : String
  submit_selector : String
deriving Repr, DecidableEq

/-- Classifier output shape `ChangeEmailSectionAnalysis` plus the `page.url`
read in the same node (`src/models/llm.py`, `src/nodes.py` line 527). -/
structure CEAAnalysisR where
  is_page_reached : Bool
  next_action_location : String
  page_url : String
deriving Repr, DecidableEq

/-- One stub behaviour of the external collaborators. -/
structure Env where
  /-- `runtime.context.username` (may be unset, and `""` is falsy). -/
  username : Option String
  /-- `runtime.context.password`. -/
  password : Option String
  /-- `find_url`: search provider plus URL-selection classifier. -/
  search_url : OverallState → String
  /-- `find_login_button`: goto, DOM extraction and `CSSSelector` classifier:
  the selector and the href of the login control. -/
  login_button : OverallState → String × Option String
  /-- `navigate_to_login` `try` block: the `page.url` after navigation, or a
  raised exception. -/
  nav_login_result : OverallState → Except String String
  /-- `analyze_page`: DOM extraction and `PageAnalysis` classifier. -/
  page_analysis : OverallState → PageAnalysisR
  /-- `login` `try` block: fills and submits the form; on success the URLs
  and the three verification inspections, otherwise a raised exception. -/
  login_attempt : OverallState → Except String LoginObs
  /-- `find_change_email_access`: DOM extraction and classifier: the link
  text of the change-email control. -/
  cea_text : OverallState → String
  /-- `navigate_to_change_email_section` `try` block: the `page.url` after
  navigation, or a raised exception. -/
  nav_cea_result : OverallState → Except String String
  /-- `check_if_email_change_reached`: DOM extraction, the
  `ChangeEmailSectionAnalysis` classifier and the final `page.url` read. -/
  cea_analysis : OverallState → CEAAnalysisR
  /-- `urllib.parse.urljoin`, used for relative login hrefs. -/
  urljoin : String → String → String

/-! ### `src/nodes.py`: the eight graph nodes

Each node returns a partial update that the graph merges field-by-field into
the state (`url_history` is append-only); the embedding applies the merge
directly, so each function maps the pre-state to the post-state. -/

/-- `find_url` (`src/nodes.py` lines 16-54): picks a homepage URL from the
search results, sets `initial_url` and `current_url`. -/
def find_url (env : Env) (s : OverallState) : OverallState :=
  let u := env.search_url s
  { s with initial_url := some u, current_url := some u }

/-- `find_login_button` (`src/nodes.py` lines 56-131): reads
`state.get("current_url") or state["initial_url"]` (Python `or` skips the
empty string too), asks the classifier for the login control, and resolves
the navigation method from its href. -/
def find_login_button (env : Env) (s : OverallState) : OverallState :=
  let url := if (s.current_url.getD "") = "" then s.initial_url.getD ""
             else s.current_url.getD ""
  let r := env.login_button s
  { s with next_action_location := some r.1, login_href := r.2,
           current_url := some url,
           navigation_method := some (determine_navigation_method r.2) }

/-- The browser interaction performed by a navigation node. -/
inductive BAction where
  | goto (url : String)
  | click (selector : String)
  | clickByText (text : String)
deriving Repr, DecidableEq

/-- The browser action chosen inside `navigate_to_login`'s `try` block
(`src/nodes.py` lines 160-186): a `page.goto` when the resolved method is
`"url"` (joining relative hrefs), otherwise a `page.click` on the stored
selector. -/
def navigate_to_login_action (env : Env) (s : OverallState) : BAction :=
  if s.navigation_method = some "url" then
    let login_url := s.login_href.getD ""
    let login_url := if strStartsWith login_url "/" then
                       env.urljoin (s.current_url.getD "") login_url
                     else login_url
    .goto login_url
  else
    .click (s.next_action_location.getD "")

/-- `navigate_to_login` (`src/nodes.py` lines 133-197): attempts the chosen
navigation; an exception is caught and the node stays on the same URL (the
`except` branch only prints).  The URL before the attempt is appended to
`url_history`. -/
def navigate_to_login (env : Env) (s : OverallState) : OverallState :=
  let url := s.current_url.getD ""
  let new_url := match env.nav_login_result s with
                 | .ok u => u
                 | .error _ => url
  { s with url_history := s.url_history ++ [url], current_url := some new_url }

/-- `analyze_page` (`src/nodes.py` lines 199-269): classifier verdict on
whether the login page is reached, the three form selectors, and
`retry_count := state.get("retry_count", 0) + 1`. -/
def analyze_page (env : Env) (s : OverallState) : OverallState :=
  let r := env.page_analysis s
  { s with is_login_page_reached := r.is_page_reached,
           username_selector := some r.username_selector,
           password_selector := some r.password_selector,
           submit_selector := some r.submit_selector,
           retry_count := s.retry_count + 1 }

/-- `login` (`src/nodes.py` lines 271-356): with missing (or empty, Python
falsy) credentials, fails with an error message; otherwise fills and submits
the form — an exception yields `login_success := False` with the message in
`error`, and on a completed attempt `verify_login_success` decides the
verdict, `current_url` becomes the post-login URL and that URL is appended
to `url_history`. -/
def login (env : Env) (s : OverallState) : OverallState :=
  if env.username.getD "" = "" || env.password.getD "" = "" then
    { s with login_success := some false, error := some "Missing username or password" }
  else
    match env.login_attempt s with
    | .ok obs =>
        { s with login_success := some (verify_login_success obs),
                 current_url := some obs.url_after,
                 url_history := s.url_history ++ [obs.url_after] }
    | .error e =>
        { s with login_success := some false, error := some e }

/-- `find_change_email_access` (`src/nodes.py` lines 358-417): classifier
picks the link text leading toward the change-email section; `current_url`
is re-written with its own value. -/
def find_change_email_access (env : Env) (s : OverallState) : OverallState :=
  { s with next_action_location := some (env.cea_text s),
           current_url := some (s.current_url.getD "") }

/-- The browser interaction of `navigate_to_change_email_section`
(`src/nodes.py` lines 444-450): unconditionally
`page.get_by_text(state["next_action_location"]).first.click(...)`. -/
def navigate_to_change_email_section_action (s : OverallState) : BAction :=
  .clickByText (s.next_action_location.getD "")

/-- `navigate_to_change_email_section` (`src/nodes.py` lines 419-468):
clicks the stored text; an exception is caught and the node stays on the
same URL (the `except` branch only prints).  The URL before the attempt is
appended to `url_history`. -/
def navigate_to_change_email_section (env : Env) (s : OverallState) : OverallState :=
  let url := s.current_url.getD ""
  let new_url := match env.nav_cea_result s with
                 | .ok u => u
                 | .error _ => url
  { s with url_history := s.url_history ++ [url], current_url := some new_url }

/-- `check_if_email_change_reached` (`src/nodes.py` lines 470-527):
classifier verdict on whether the change-email section is reached, the next
click target when it is not, and the current `page.url`.  Note: no update to
`retry_count`. -/
def check_if_email_change_reached (env : Env) (s : OverallState) : OverallState :=
  let r := env.cea_analysis s
  { s with is_change_email_section_reached := r.is_page_reached,
           next_action_location := if r.is_page_reached then none
                                   else some r.next_action_location,
           current_url := some r.page_url }

/-! ### `src/graph.py`: guards and wiring -/

/-- `is_url_missing` (`src/graph.py` lines 23-24). -/
def is_url_missing (s : OverallState) : Bool := s.initial_url.isNone

/-- `should_retry_look_for_login` (`src/graph.py` lines 26-27). -/
def should_retry_look_for_login (s : OverallState) : Bool :=
  !s.is_login_page_reached && decide (s.retry_count < 3)

/-- `should_retry_change_email_section` (`src/graph.py` lines 29-30). -/
def should_retry_change_email_section (s : OverallState) : Bool :=
  !s.is_change_email_section_reached && decide (s.retry_count < 3)

/-- The graph nodes, plus `done` for langgraph's `END`. -/
inductive Node where
  | find_url | find_login_button | navigate_to_login | analyze_page | login
  | find_change_email_access | navigate_to_change_email_section
  | check_if_email_change_reached | done
deriving Repr, DecidableEq

/-- One transition of the compiled graph (`src/graph.py` lines 33-41): run
the current node, then follow its (conditional) edge, each guard evaluated
on the updated state. -/
def step (env : Env) : Node × OverallState → Node × OverallState
  | (.find_url, s) => (.find_login_button, find_url env s)
  | (.find_login_button, s) => (.navigate_to_login, find_login_button env s)
  | (.navigate_to_login, s) => (.analyze_page, navigate_to_login env s)
  | (.analyze_page, s) =>
      let s' := analyze_page env s
      (if should_retry_look_for_login s' then .find_login_button else .login, s')
  | (.login, s) => (.find_change_email_access, login env s)
  | (.find_change_email_access, s) =>
      (.navigate_to_change_email_section, find_change_email_access env s)
  | (.navigate_to_change_email_section, s) =>
      (.check_if_email_change_reached, navigate_to_change_email_section env s)
  | (.check_if_email_change_reached, s) =>
      let s' := check_if_email_change_reached env s
      (if should_retry_change_email_section s' then .find_change_email_access else .done, s')
  | (.done, s) => (.done, s)

/-- The conditional entry edge (`src/graph.py` line 33). -/
def start_node (s : OverallState) : Node :=
  if is_url_missing s then .find_url else .find_login_button

/-- The machine configuration after `n` transitions from input state `inp`. -/
def run (env : Env) (inp : OverallState) : Nat → Node × OverallState
  | 0 => (start_node inp, inp)
  | n + 1 => step env (run env inp n)

/-- The nodes executed during the first `n` transitions (the node component
of each configuration the step function consumed). -/
def executed (env : Env) (inp : OverallState) : Nat → List Node
  | 0 => []
  | n + 1 => executed env inp n ++ [(run env inp n).1]

/-- Number of navigation-node executions in a list of executed nodes. -/
def navCount (l : List Node) : Nat :=
  l.count .navigate_to_login + l.count .navigate_to_change_email_section

/-! ### Concrete stub behaviours used as witnesses -/

/-- Run input with the target URL already supplied. -/
def inpHappy : OverallState :=
  { website_name := "Agrosemens", initial_url := some "https://www.agrosemens.com/" }

/-- Login-attempt observations of a clean successful login. -/
def obsHappy : LoginObs :=
  { url_start := "https://www.agrosemens.com/mon-compte"
    url_after := "https://www.agrosemens.com/account"
    form_disappeared := .ok true
    no_errors := .ok true
    success_indicators := .ok true }

/-- Stub behaviour in which every external call succeeds at the first try:
the login page is confirmed on the first check and the change-email section
on the first check after login. -/
def envHappy : Env :=
  { username := some "user"
    password := some "pw"
    search_url := fun _ => "https://www.agrosemens.com/"
    login_button := fun _ => (".login", some "https://www.agrosemens.com/mon-compte")
    nav_login_result := fun _ => .ok "https://www.agrosemens.com/mon-compte"
    page_analysis := fun _ =>
      { is_page_reached := true, username_selector := "#email"
        password_selector := "#passwd", submit_selector := "#SubmitLogin" }
    login_attempt := fun _ => .ok obsHappy
    cea_text := fun _ => "Mes informations personnelles"
    nav_cea_result := fun _ => .ok "https://www.agrosemens.com/identity"
    cea_analysis := fun _ =>
      { is_page_reached := true, next_action_location := ""
        page_url := "https://www.agrosemens.com/identity" }
    urljoin := fun base rel => base ++ rel }

/-- Stub behaviour identical to `envHappy` except that the classifier never
confirms the change-email section. -/
def envLoop : Env :=
  { envHappy with
    cea_analysis := fun _ =>
      { is_page_reached := false
        next_action_location := "Mes informations personnelles"
        page_url := "https://www.agrosemens.com/account" } }

/-- Stub behaviour identical to `envHappy` except that the classifier never
confirms the login page. -/
def envNeverReach : Env :=
  { envHappy with
    page_analysis := fun _ =>
      { is_page_reached := false, username_selector := "", password_selector := "",
        submit_selector := "" } }

/-- Stub behaviour identical to `envHappy` except that both navigation
`try` blocks raise. -/
def envNavFail : Env :=
  { envHappy with
    nav_login_result := fun _ => .error "net::ERR_CONNECTION_RESET at goto",
    nav_cea_result := fun _ => .error "Timeout 10000ms exceeded waiting for click" }

/-- A state about to run a navigation node, with the resolver's decision for
the stored login href being `"url"`. -/
def stNav : OverallState :=
  { inpHappy with
    current_url := some "https://www.agrosemens.com/",
    navigation_method := some "url",
    login_href := some "https://www.agrosemens.com/mon-compte",
    next_action_location := some "Mes informations personnelles" }

/-- A post-login state about to look for the change-email section, whose
pending href (`login_href`) resolves to `"url"`. -/
def stCea : OverallState :=
  { website_name := "Agrosemens",
    current_url := some "https://www.agrosemens.com/account",
    next_action_location := some "Mes informations personnelles",
    login_href := some "https://www.agrosemens.com/mon-compte",
    navigation_method := some "url" }

/-- The exact `url_history` contribution of one transition, read off the
node bodies: each navigation node appends the URL current before the
attempt, and `login` appends the post-login URL when credentials are present
and the attempt raises no exception; no other node appends. -/
def hist_delta (env : Env) : Node × OverallState → List String
  | (.navigate_to_login, s) => [s.current_url.getD ""]
  | (.navigate_to_change_email_section, s) => [s.current_url.getD ""]
  | (.login, s) =>
      if env.username.getD "" = "" || env.password.getD "" = "" then []
      else match env.login_attempt s with
           | .ok obs => [obs.url_after]
           | .error _ => []
  | _ => []

/-- Invariant of the second-phase retry loop under `envLoop`: the machine
sits in one of the three phase-two loop nodes with `retry_count` stuck at
`1` and the change-email section never confirmed. -/
def loopInv (c : Node × OverallState) : Prop :=
  (c.1 = Node.find_change_email_access ∨ c.1 = Node.navigate_to_change_email_section ∨
   c.1 = Node.check_if_email_change_reached) ∧
  c.2.retry_count = 1 ∧ c.2.is_change_email_section_reached = false

/-! ## Theorems -/

/-- Helper: a `step` under `envLoop` preserves `loopInv` — none of the three
loop nodes touches `retry_count`, the classifier keeps answering that the
section is not reached, and the guard `retry_count < 3` therefore keeps
routing back into the loop. -/
theorem loopInv_step (c : Node × OverallState) (h : loopInv c) : loopInv (step envLoop c) := by
  obtain ⟨hn, hrc, hflag⟩ := h
  rcases c with ⟨n, s⟩
  have hc : ∀ t : OverallState, envLoop.cea_analysis t =
      { is_page_reached := false, next_action_location := "Mes informations personnelles",
        page_url := "https://www.agrosemens.com/account" } := fun _ => rfl
  have hn2 : ∀ t : OverallState, envLoop.nav_cea_result t =
      .ok "https://www.agrosemens.com/identity" := fun _ => rfl
  rcases hn with h | h | h <;> subst h <;>
    simp_all [loopInv, step, find_change_email_access, navigate_to_change_email_section,
      check_if_email_change_reached, should_retry_change_email_section]

/-- Helper: the `login` node never writes `output_status`. -/
theorem login_output_status (env : Env) (s : OverallState) :
    (login env s).output_status = s.output_status := by
  unfold login
  split
  · rfl
  · split <;> rfl

/-- C1: the claim states that every run terminates because both retry loops
are bounded to 3 verification cycles.  The code violates this:
`check_if_email_change_reached` never increments `retry_count` (contradicting
its own docstring), so under the stub behaviour `envLoop` — login page
confirmed on the first check (`retry_count = 1`), change-email section never
confirmed — the second loop's guard `retry_count < 3` stays true forever and
the machine never reaches the terminal state. -/
theorem second_phase_retry_loop_diverges :
    ∀ n : Nat, (run envLoop inpHappy n).1 ≠ Node.done := by
  have base : loopInv (run envLoop inpHappy 4) :=
    ⟨Or.inl (by decide), by decide, by decide⟩
  have inv : ∀ k, loopInv (run envLoop inpHappy (4 + k)) := by
    intro k
    induction k with
    | zero => exact base
    | succ k ih =>
        rw [Nat.add_succ]
        exact loopInv_step _ ih
  intro n
  rcases Nat.lt_or_ge n 4 with h | h
  · interval_cases n <;> decide
  · obtain ⟨k, rfl⟩ : ∃ k, n = 4 + k := ⟨n - 4, by omega⟩
    rcases (inv k).1 with h' | h' | h' <;> simp [h']

/-- C2: the claim states that both verification nodes increment
`retry_count` by exactly one.  Only `analyze_page` does;
`check_if_email_change_reached` leaves `retry_count` unchanged for every
stub behaviour and every state, contradicting its own docstring ("retry ...
up to 3 times") and the spec. -/
theorem retry_count_increment_mismatch :
    ∀ (env : Env) (s : OverallState),
      (analyze_page env s).retry_count = s.retry_count + 1 ∧
      (check_if_email_change_reached env s).retry_count = s.retry_count :=
  fun _ _ => ⟨rfl, rfl⟩

/-- C3: the claim states that some step assigns `output_status` one of
`"success"`, `"searching"`, `"failed"` before the terminal state.  No step
of the machine ever writes `output_status` (the field is declared in the
output schema but assigned nowhere), so a completed run — here the
first-try-success stub — ends with `output_status` still unset. -/
theorem output_status_never_assigned :
    (∀ (env : Env) (c : Node × OverallState),
      (step env c).2.output_status = c.2.output_status) ∧
    (run envHappy inpHappy 7).1 = Node.done ∧
    (run envHappy inpHappy 7).2.output_status = none := by
  refine ⟨?_, by decide, by decide⟩
  rintro env ⟨n, s⟩
  cases n <;>
    simp [step, find_url, find_login_button, navigate_to_login, analyze_page,
      find_change_email_access, navigate_to_change_email_section,
      check_if_email_change_reached, login_output_status]

/-- C4: both retry predicates are true exactly when the target has not been
reached and `retry_count` is below the ceiling of 3, and once
`retry_count` reaches 3 without success the `analyze_page` gate routes to
`login` instead of retrying a fourth time. -/
theorem retry_predicates_bounded_by_ceiling (env : Env) (s : OverallState) :
    (s.is_login_page_reached = false → s.retry_count < 3 →
      should_retry_look_for_login s = true) ∧
    (3 ≤ s.retry_count → should_retry_look_for_login s = false) ∧
    (s.is_login_page_reached = true → should_retry_look_for_login s = false) ∧
    (s.is_change_email_section_reached = false → s.retry_count < 3 →
      should_retry_change_email_section s = true) ∧
    (3 ≤ s.retry_count → should_retry_change_email_section s = false) ∧
    (s.is_change_email_section_reached = true → should_retry_change_email_section s = false) ∧
    ((analyze_page env s).is_login_page_reached = false →
      3 ≤ (analyze_page env s).retry_count →
      step env (Node.analyze_page, s) = (Node.login, analyze_page env s)) := by
  refine ⟨?_, ?_, ?_, ?_, ?_, ?_, ?_⟩
  · intro h1 h2
    simp [should_retry_look_for_login, h1, h2]
  · intro h
    simp [should_retry_look_for_login, Nat.not_lt.mpr h]
  · intro h
    simp [should_retry_look_for_login, h]
  · intro h1 h2
    simp [should_retry_change_email_section, h1, h2]
  · intro h
    simp [should_retry_change_email_section, Nat.not_lt.mpr h]
  · intro h
    simp [should_retry_change_email_section, h]
  · intro h1 h2
    have hf : should_retry_look_for_login (analyze_page env s) = false := by
      simp [should_retry_look_for_login, h1, Nat.not_lt.mpr h2]
    simp [step, hf]

/-- C4 witness: the retry predicates evaluated at concrete attempt counts
0, 2 and 3, and the gate routing to `login` at a concrete state with
`retry_count = 2` before the verification step. -/
theorem retry_predicates_bounded_by_ceiling_witness :
    should_retry_look_for_login { retry_count := 0 } = true ∧
    should_retry_look_for_login { retry_count := 3 } = false ∧
    should_retry_look_for_login { is_login_page_reached := true } = false ∧
    should_retry_change_email_section { retry_count := 2 } = true ∧
    should_retry_change_email_section { retry_count := 3 } = false ∧
    should_retry_change_email_section { is_change_email_section_reached := true } = false ∧
    step envNeverReach (Node.analyze_page, { retry_count := 2 }) =
      (Node.login, analyze_page envNeverReach { retry_count := 2 }) :=
  ⟨(retry_predicates_bounded_by_ceiling envNeverReach { retry_count := 0 }).1 rfl (by decide),
   (retry_predicates_bounded_by_ceiling envNeverReach { retry_count := 3 }).2.1 (by decide),
   (retry_predicates_bounded_by_ceiling envNeverReach
      { is_login_page_reached := true }).2.2.1 rfl,
   (retry_predicates_bounded_by_ceiling envNeverReach { retry_count := 2 }).2.2.2.1 rfl
     (by decide),
   (retry_predicates_bounded_by_ceiling envNeverReach { retry_count := 3 }).2.2.2.2.1
     (by decide),
   (retry_predicates_bounded_by_ceiling envNeverReach
      { is_change_email_section_reached := true }).2.2.2.2.2.1 rfl,
   (retry_predicates_bounded_by_ceiling envNeverReach { retry_count := 2 }).2.2.2.2.2.2 rfl
     (by decide)⟩

/-- C5: over all 16 combinations of the four boolean signals, the login
verifier's combination logic equals the spec's formula, and in particular
an error banner (`noErrorsShown = false`) blocks the
`urlChanged ∧ successCuesPresent` combination. -/
theorem login_decision_matches_spec_formula :
    (∀ a b c d : Bool, login_success_decision a b c d = spec_login_success_formula a b c d) ∧
    login_success_decision true false false true = false := by
  refine ⟨?_, rfl⟩
  intro a b c d
  cases a <;> cases b <;> cases c <;> cases d <;> rfl

/-- C6: if any of the three page inspections inside `verify_login_success`
raises, the verifier returns `false` — it fails closed. -/
theorem verify_login_success_fails_closed (obs : LoginObs)
    (h : (∃ e, obs.form_disappeared = .error e) ∨ (∃ e, obs.no_errors = .error e) ∨
         (∃ e, obs.success_indicators = .error e)) :
    verify_login_success obs = false := by
  obtain ⟨us, ua, fd, ne, si⟩ := obs
  rcases fd with e | b <;> rcases ne with e' | b' <;> rcases si with e'' | b'' <;>
    first
      | rfl
      | (exfalso
         rcases h with ⟨x, hx⟩ | ⟨x, hx⟩ | ⟨x, hx⟩ <;> cases hx)

/-- C6 witness: a concrete observation whose form inspection raised. -/
theorem verify_login_success_fails_closed_witness :
    verify_login_success
      { url_start := "https://a.com/login", url_after := "https://a.com/home",
        form_disappeared := Except.error "Execution context was destroyed",
        no_errors := Except.ok true, success_indicators := Except.ok true } = false :=
  verify_login_success_fails_closed _ (Or.inl ⟨"Execution context was destroyed", rfl⟩)

/-- C7: `determine_navigation_method` agrees with the spec's four-rule table
(`resolve_spec`) on every input, including `none` and the empty string; as a
plain function of its argument it is total and deterministic. -/
theorem determine_navigation_method_matches_spec_rules :
    ∀ href : Option String, determine_navigation_method href = resolve_spec href := by
  intro href
  cases href with
  | none => rfl
  | some s =>
    by_cases h0 : s = ""
    · simp [determine_navigation_method, resolve_spec, h0]
    · have e1 : toLowerStr "#" = "#" := rfl
      have e2 : toLowerStr "javascript:void(0)" = "javascript:void(0)" := rfl
      have e3 : toLowerStr "javascript:;" = "javascript:;" := rfl
      have e4 : toLowerStr "http://" = "http://" := rfl
      have e5 : toLowerStr "https://" = "https://" := rfl
      have e6 : toLowerStr "/" = "/" := rfl
      simp only [determine_navigation_method, resolve_spec, ciEq, ciStartsWith,
        e1, e2, e3, e4, e5, e6, if_neg h0, noOpMarkers]
      by_cases hm : toLowerStr s ∈ ["#", "javascript:void(0)", "javascript:;"]
      · have hb : (toLowerStr s == "#" || toLowerStr s == "javascript:void(0)" ||
            toLowerStr s == "javascript:;") = true := by
          simp only [List.mem_cons, List.mem_singleton, List.not_mem_nil, or_false] at hm
          rcases hm with h | h | h <;> simp [h]
        simp [hm, hb]
      · have hb : (toLowerStr s == "#" || toLowerStr s == "javascript:void(0)" ||
            toLowerStr s == "javascript:;") = false := by
          simp only [List.mem_cons, List.mem_singleton, List.not_mem_nil, or_false,
            not_or] at hm
          simp [hm.1, hm.2.1, hm.2.2]
        simp [hm, hb]

/-- C8 counterexample: in the first-try-success run the machine terminates
after two navigation-node executions, yet `url_history` has three entries —
the `login` node also appended one — so the claimed equality between history
length and navigation count fails on a completed run. -/
theorem url_history_login_append_counterexample :
    (run envHappy inpHappy 7).1 = Node.done ∧
    navCount (executed envHappy inpHappy 7) = 2 ∧
    (run envHappy inpHappy 7).2.url_history.length = 3 ∧
    (run envHappy inpHappy 7).2.url_history.length ≠ navCount (executed envHappy inpHappy 7) :=
  ⟨by decide, by decide, by decide, by decide⟩

/-- C8 amended: each navigation step appends exactly one entry, the URL
current before the attempt; the `login` step additionally appends the
post-login URL when credentials are present and the attempt raises no
exception; no other step appends — `hist_delta` records exactly this.  So
for a completed run, the history length is the number of navigation steps
plus the number of completed login submissions, not the navigation count
alone. -/
theorem url_history_append_characterization :
    ∀ (env : Env) (c : Node × OverallState),
      (step env c).2.url_history = c.2.url_history ++ hist_delta env c := by
  intro env c
  rcases c with ⟨n, s⟩
  cases n
  case login =>
    show (login env s).url_history = s.url_history ++ _
    unfold login hist_delta
    split
    · rename_i h
      simp [h]
    · rename_i h
      cases h2 : env.login_attempt s <;> simp [h, h2]
  all_goals
    simp [step, hist_delta, find_url, find_login_button, navigate_to_login, analyze_page,
      find_change_email_access, navigate_to_change_email_section, check_if_email_change_reached]

/-- C9 counterexample: when the navigation `try` block raises, both
navigation nodes leave the `error` field untouched (`none` stays `none`) —
the failure is only printed, never recorded in `lastError` as the claim
states. -/
theorem navigation_failure_error_not_recorded :
    (navigate_to_login envNavFail stNav).error = none ∧
    (navigate_to_change_email_section envNavFail stNav).error = none := by
  decide

/-- C9 amended: every navigation exception is caught, `current_url` keeps
its prior value, and the run continues to the next node — but the `error`
field is left unchanged rather than receiving a failure description. -/
theorem navigation_failure_recovery (env : Env) (s : OverallState) (u : String)
    (e1 e2 : String) (h0 : s.current_url = some u)
    (h1 : env.nav_login_result s = .error e1) (h2 : env.nav_cea_result s = .error e2) :
    (navigate_to_login env s).current_url = some u ∧
    (navigate_to_login env s).error = s.error ∧
    step env (Node.navigate_to_login, s) = (Node.analyze_page, navigate_to_login env s) ∧
    (navigate_to_change_email_section env s).current_url = some u ∧
    (navigate_to_change_email_section env s).error = s.error ∧
    step env (Node.navigate_to_change_email_section, s) =
      (Node.check_if_email_change_reached, navigate_to_change_email_section env s) := by
  refine ⟨?_, ?_, rfl, ?_, ?_, rfl⟩ <;>
    simp [navigate_to_login, navigate_to_change_email_section, h0, h1, h2]

/-- C9 witness: a concrete state and a stub whose navigation raises on both
navigation nodes. -/
theorem navigation_failure_recovery_witness :
    (navigate_to_login envNavFail stNav).current_url = some "https://www.agrosemens.com/" ∧
    (navigate_to_login envNavFail stNav).error = stNav.error ∧
    step envNavFail (Node.navigate_to_login, stNav) =
      (Node.analyze_page, navigate_to_login envNavFail stNav) ∧
    (navigate_to_change_email_section envNavFail stNav).current_url =
      some "https://www.agrosemens.com/" ∧
    (navigate_to_change_email_section envNavFail stNav).error = stNav.error ∧
    step envNavFail (Node.navigate_to_change_email_section, stNav) =
      (Node.check_if_email_change_reached, navigate_to_change_email_section envNavFail stNav) :=
  navigation_failure_recovery envNavFail stNav "https://www.agrosemens.com/" _ _ rfl rfl rfl

/-- C10 counterexample: at a state whose pending href resolves to
follow-url, `navigate_to_change_email_section` still performs a click on
the stored text rather than a URL navigation. -/
theorem change_email_navigation_ignores_url_decision :
    determine_navigation_method stCea.login_href = "url" ∧
    navigate_to_change_email_section_action stCea =
      BAction.clickByText "Mes informations personnelles" := by
  decide

/-- C10 amended: only `navigate_to_login` performs the navigation chosen by
the resolver (a `goto` when the decision is `"url"`, a `click` otherwise);
`navigate_to_change_email_section` always clicks the first element matching
the stored text, regardless of the resolver's decision. -/
theorem change_email_navigation_always_clicks (env : Env) (s : OverallState) :
    (s.navigation_method = some "url" →
      ∃ u, navigate_to_login_action env s = BAction.goto u) ∧
    (s.navigation_method ≠ some "url" →
      navigate_to_login_action env s = BAction.click (s.next_action_location.getD "")) ∧
    navigate_to_change_email_section_action s =
      BAction.clickByText (s.next_action_location.getD "") := by
  refine ⟨?_, ?_, rfl⟩
  · intro h
    simp [navigate_to_login_action, h]
  · intro h
    simp [navigate_to_login_action, h]

/-- C10 witness: the two resolver decisions exercised at concrete states,
and the change-email navigation clicking regardless. -/
theorem change_email_navigation_always_clicks_witness :
    (∃ u, navigate_to_login_action envHappy stCea = BAction.goto u) ∧
    navigate_to_login_action envHappy { stCea with navigation_method := some "click" } =
      BAction.click "Mes informations personnelles" ∧
    navigate_to_change_email_section_action stCea =
      BAction.clickByText "Mes informations personnelles" :=
  ⟨(change_email_navigation_always_clicks envHappy stCea).1 rfl,
   (change_email_navigation_always_clicks envHappy
      { stCea with navigation_method := some "click" }).2.1 (by decide),
   (change_email_navigation_always_clicks envHappy stCea).2.2⟩

end EmailAgent
